import Mathlib

/-!
Verification of the tpcf-usage-service usage-aggregation pipeline.

The Go source is shallowly embedded: structs become Lean structures, Go
`map[string]T` becomes the function type `String → Option T`, Go `int`
counts become `Int` (overflow is out of scope for the usage counts this
program handles), and every network call is replaced by an explicit
oracle (environment) argument recording what the platform API would have
answered.  Fallible Go functions returning `(T, error)` become
`Option`/`Except` values.
-/

namespace TpcfUsage

/-- `relationships.service_plan.data.guid` flattened; from `types.go` /
`part_000`: `ServiceInstance`. -/
structure ServiceInstance where
  guid : String
  name : String
  servicePlanGUID : String
deriving DecidableEq, Repr

/-- From `types.go`: `ServicePlan` with
`relationships.service_offering.data.guid` flattened. -/
structure ServicePlan where
  guid : String
  name : String
  serviceOfferingGUID : String
deriving DecidableEq, Repr

/-- From `types.go`: `ServiceOffering`. -/
structure ServiceOffering where
  guid : String
  name : String
deriving DecidableEq, Repr

/-- From `types.go`: `Organization`. -/
structure Organization where
  name : String
  guid : String
deriving DecidableEq, Repr

/-- From `types.go`: `UsageSummary.usage_summary` (the two counts). -/
structure UsageSummary where
  startedInstances : Int
  serviceInstances : Int
deriving DecidableEq, Repr

/-- From `types.go`: `MonthlyReport` (float fields dropped; no claim
touches them). -/
structure MonthlyReport where
  month : Int
  year : Int
  maximumAppInstances : Int
deriving DecidableEq, Repr

/-- From `types.go`: `YearlyReport` (float fields dropped). -/
structure YearlyReport where
  year : Int
  maximumAppInstances : Int
deriving DecidableEq, Repr

/-- From `types.go`: `AppUsageReport`. -/
structure AppUsageReport where
  monthlyReports : List MonthlyReport
  yearlyReports : List YearlyReport
deriving DecidableEq, Repr

/-- From `types.go`: `OrgUsage`. -/
structure OrgUsage where
  name : String
  ais : Int
  sis : Int
  billableSIs : Int
deriving DecidableEq, Repr

/-- From `types.go`: `UsageResult`. -/
structure UsageResult where
  organizations : List OrgUsage
  totalAIs : Int
  totalBillableAIs : Int
  totalSIs : Int
  totalBillableSIs : Int
  monthlyMaxBillableAIs : Int
  yearlyMaxBillableAIs : Int
deriving DecidableEq, Repr

/-- Go `map[string]T`. -/
def StrMap (α : Type) : Type := String → Option α

/-- Go map assignment `m[k] = v`. -/
def StrMap.insert {α : Type} (m : StrMap α) (k : String) (v : α) : StrMap α :=
  fun x => if x = k then some v else m x

/-- Go `make(map[string]T)`. -/
def StrMap.empty {α : Type} : StrMap α := fun _ => none

/-- The two lookup tables held by `CFClient` (`servicePlans`,
`serviceOfferings` in `types.go`). -/
structure CFCatalog where
  servicePlans : StrMap ServicePlan
  serviceOfferings : StrMap ServiceOffering

/-- The hardcoded `billableOfferings` map literal inside
`isServiceInstanceBillable` (part_000 lines 344-354): membership of the
offering name in the nine-element set, Go map lookup yielding the zero
value `false` on a miss. -/
def billableOfferingNames : List String :=
  ["p.mysql", "p-mysql", "p.rabbitmq", "p-rabbitmq", "p.redis", "p-redis",
   "postgres", "genai", "genai-service"]

/-- `CFClient.isServiceInstanceBillable` (part_000 lines 330-357):
plan lookup, then offering lookup, then the hardcoded billable-offering
map; returns the billability flag and a string (offering name, or a
generic reason on a lookup miss). -/
def isServiceInstanceBillable (c : CFCatalog) (inst : ServiceInstance) :
    Bool × String :=
  match c.servicePlans inst.servicePlanGUID with
  | none => (false, "unknown-plan")
  | some plan =>
    match c.serviceOfferings plan.serviceOfferingGUID with
    | none => (false, "unknown-offering")
    | some offering =>
      (billableOfferingNames.contains offering.name, offering.name)

/-- What the platform API would answer for one organization: the
`getUsageSummary` result and the `getServiceInstances` result
(`none` models a fetch error). -/
structure OrgData where
  summary : Option UsageSummary
  instances : Option (List ServiceInstance)

/-- The whole network environment of one collection run: the
`getOrganizations` answer, the per-organization answers, the loaded
catalog, the `getAppUsageReport` answer and the current clock reading. -/
structure CFEnv where
  catalog : CFCatalog
  orgsResult : Option (List Organization)
  orgData : String → OrgData
  appReport : Option AppUsageReport
  curMonth : Int
  curYear : Int

/-- `shouldSkipOrg` (part_000 lines 531-538): linear scan of the skip
list with `==` on names. -/
def shouldSkipOrg (orgName : String) (skipList : List String) : Bool :=
  match skipList with
  | [] => false
  | skip :: rest => if orgName = skip then true else shouldSkipOrg orgName rest

/-- The five accumulators of the `collectUsageData` loop
(part_000 lines 421-425). -/
structure Accum where
  totalAIs : Int
  totalBillableAIs : Int
  totalSIs : Int
  totalBillableSIs : Int
  orgUsages : List OrgUsage
deriving DecidableEq, Repr

/-- The inner billable-counting loop of `collectUsageData`
(part_000 lines 462-472). -/
def countBillable (cat : CFCatalog) (insts : List ServiceInstance) : Int :=
  insts.foldl
    (fun n inst => if (isServiceInstanceBillable cat inst).1 then n + 1 else n) 0

/-- One iteration of the per-organization loop of `collectUsageData`
(part_000 lines 427-482): fetch the usage summary (`continue` on error),
always add its counts to the grand totals, `continue` on a skip-list hit,
add the billable app instances, fetch the service instances (`continue`
on error), count the billable ones and append the `OrgUsage` entry. -/
def processOrg (env : CFEnv) (skipOrgs : List String) (acc : Accum)
    (org : Organization) : Accum :=
  match (env.orgData org.guid).summary with
  | none => acc
  | some summary =>
    let ais := summary.startedInstances
    let sis := summary.serviceInstances
    let acc1 := { acc with totalAIs := acc.totalAIs + ais,
                           totalSIs := acc.totalSIs + sis }
    if shouldSkipOrg org.name skipOrgs then acc1
    else
      let acc2 := { acc1 with totalBillableAIs := acc1.totalBillableAIs + ais }
      match (env.orgData org.guid).instances with
      | none => acc2
      | some insts =>
        let billableSIs := countBillable env.catalog insts
        { acc2 with
          totalBillableSIs := acc2.totalBillableSIs + billableSIs,
          orgUsages := acc2.orgUsages ++
            [{ name := org.name, ais := ais, sis := sis,
               billableSIs := billableSIs }] }

/-- The monthly-report selection loop of `collectUsageData`
(part_000 lines 499-504): first entry matching the current month and
year, default 0. -/
def findMonthlyMax (reports : List MonthlyReport) (month year : Int) : Int :=
  match reports with
  | [] => 0
  | r :: rest =>
    if r.month = month ∧ r.year = year then r.maximumAppInstances
    else findMonthlyMax rest month year

/-- The yearly-report selection loop of `collectUsageData`
(part_000 lines 507-512). -/
def findYearlyMax (reports : List YearlyReport) (year : Int) : Int :=
  match reports with
  | [] => 0
  | r :: rest =>
    if r.year = year then r.maximumAppInstances else findYearlyMax rest year

/-- `collectUsageData` (part_000 lines 415-528): organization
enumeration failure is fatal; otherwise the per-organization loop runs
over the enumerated organizations, and the optional app-usage report
contributes the monthly/yearly maxima (0 when the report is
unavailable). -/
def collectUsageData (env : CFEnv) (skipOrgs : List String) :
    Except String UsageResult :=
  match env.orgsResult with
  | none => .error "failed to get organizations"
  | some orgs =>
    let acc := orgs.foldl (processOrg env skipOrgs)
      { totalAIs := 0, totalBillableAIs := 0, totalSIs := 0,
        totalBillableSIs := 0, orgUsages := [] }
    let monthlyMax :=
      match env.appReport with
      | none => 0
      | some report => findMonthlyMax report.monthlyReports env.curMonth env.curYear
    let yearlyMax :=
      match env.appReport with
      | none => 0
      | some report => findYearlyMax report.yearlyReports env.curYear
    .ok { organizations := acc.orgUsages,
          totalAIs := acc.totalAIs,
          totalBillableAIs := acc.totalBillableAIs,
          totalSIs := acc.totalSIs,
          totalBillableSIs := acc.totalBillableSIs,
          monthlyMaxBillableAIs := monthlyMax,
          yearlyMaxBillableAIs := yearlyMax }

/-- `CachedData` (types.go lines 121-125); the mutex only serialises
access, so the sequential model is the pair of fields, with time as an
abstract `Int`. -/
structure CachedData where
  result : Option UsageResult
  lastFetch : Int
deriving DecidableEq, Repr

/-- `CachedData.Set` (types.go lines 133-138): store the result and
stamp the current time. -/
def CachedData.set (cd : CachedData) (result : UsageResult) (now : Int) :
    CachedData :=
  { cd with result := some result, lastFetch := now }

/-- One iteration of `refreshDataPeriodically` (server.go lines 40-45
and 51-61): on a collection error only log, otherwise `cachedData.Set`. -/
def refreshStep (cd : CachedData) (outcome : Except String UsageResult)
    (now : Int) : CachedData :=
  match outcome with
  | .error _ => cd
  | .ok result => cd.set result now

/-! ### Paged resource fetcher (part_000 lines 226-257)

Strings are Lean `String`s; the two Go string primitives the fetcher
uses — `strings.Split(url, "/")` and `strings.Contains(url, "://")` —
are mirrored on the underlying character lists. -/

/-- `strings.Contains(s, "://")`. -/
def hasSchemeSep (s : List Char) : Bool :=
  decide ([':', '/', '/'] <:+: s)

/-- The domain-stripping step of `loadAllPages` (part_000 lines 246-253)
on the character list: if the URL contains `"://"`, split on `"/"`
(`strings.Split` is `List.splitOn`) and, when there are at least 4
parts, rejoin everything from part 3 on (`strings.Join` is
`List.intercalate`) behind a leading slash; otherwise leave the URL
unchanged. -/
def stripDomainL (url : List Char) : List Char :=
  if hasSchemeSep url then
    let parts := url.splitOn '/'
    if 4 ≤ parts.length then
      '/' :: List.intercalate ['/'] (parts.drop 3)
    else url
  else url

/-- The same step on `String`. -/
def stripDomain (url : String) : String :=
  (stripDomainL url.data).asString

/-- The parsed response envelope `CFResponse` (types.go lines 11-18);
the opaque `json.RawMessage` resources are modelled as `Nat` tokens. -/
structure PageNext where
  href : String
deriving DecidableEq, Repr

structure Pagination where
  next : PageNext
deriving DecidableEq, Repr

structure CFResponse where
  resources : List Nat
  pagination : Pagination
deriving DecidableEq, Repr

/-- `loadAllPages` (part_000 lines 226-257).  `env` is the `apiCall`
oracle (`none` = transport/parse error, which aborts the whole fetch);
the loop runs while the URL is neither `""` nor `"null"`, accumulates
`resources`, stops when `next.href` is empty, and otherwise advances to
the domain-stripped next URL.  The Go loop need not terminate (the next
links may cycle), so the embedding carries fuel; `none` is returned when
either the fuel runs out or a page fetch fails. -/
def loadAllPages (env : String → Option CFResponse) :
    Nat → String → Option (List Nat)
  | 0, _ => none
  | fuel + 1, url =>
    if url = "" ∨ url = "null" then some []
    else
      match env url with
      | none => none
      | some resp =>
        if resp.pagination.next.href = "" then some resp.resources
        else
          match loadAllPages env fuel (stripDomain resp.pagination.next.href) with
          | none => none
          | some rest => some (resp.resources ++ rest)

/-- A well-formed chain of N pages starting at `url`: each URL passes the
loop guard (neither empty nor `"null"`), `env` answers the page, every
page but the last advertises a non-empty `next.href` whose domain-stripped
form starts the rest of the chain, and the last page's `next.href` is
empty.  Boolean so that concrete chains evaluate. -/
def isChain (env : String → Option CFResponse) :
    String → List CFResponse → Bool
  | _, [] => false
  | url, [p] =>
    decide (url ≠ "") && decide (url ≠ "null") &&
    decide (env url = some p) && decide (p.pagination.next.href = "")
  | url, p :: q :: rest =>
    decide (url ≠ "") && decide (url ≠ "null") &&
    decide (env url = some p) && decide (p.pagination.next.href ≠ "") &&
    isChain env (stripDomain p.pagination.next.href) (q :: rest)

/-- The concatenation of the pages' resource arrays in page order. -/
def pagesConcat (pages : List CFResponse) : List Nat :=
  (pages.map CFResponse.resources).flatten

/-! ### Reference catalog (part_000 lines 277-309) -/

/-- `loadServicePlans` (part_000 lines 277-292) given the already-fetched
and parsed page resources: insert every plan into the existing map keyed
by its GUID.  The map is NOT cleared first. -/
def loadServicePlans (m : StrMap ServicePlan) (resources : List ServicePlan) :
    StrMap ServicePlan :=
  resources.foldl (fun acc plan => acc.insert plan.guid plan) m

/-- `loadServiceOfferings` (part_000 lines 294-309), same shape. -/
def loadServiceOfferings (m : StrMap ServiceOffering)
    (resources : List ServiceOffering) : StrMap ServiceOffering :=
  resources.foldl (fun acc offering => acc.insert offering.guid offering) m

/-! ### Authenticator (part_000 lines 160-189) -/

/-- `strings.Replace(s, old, new, 1)` for a non-empty `old`: replace the
first occurrence only. -/
def replaceFirstL (old new : List Char) : List Char → List Char
  | [] => []
  | c :: rest =>
    if old.isPrefixOf (c :: rest) then new ++ (c :: rest).drop old.length
    else c :: replaceFirstL old new rest

def replaceFirst (s old new : String) : String :=
  (replaceFirstL old.data new.data s.data).asString

/-- The ordered fallback token endpoints (part_000 lines 169-173), built
from the raw API endpoint argument. -/
def fallbackURLs (apiEndpoint : String) : List String :=
  [replaceFirst apiEndpoint "api." "uaa." ++ "/oauth/token",
   apiEndpoint ++ "/uaa/oauth/token",
   apiEndpoint ++ "/oauth/token"]

/-- The fallback loop (part_000 lines 175-182): try each URL with
`authenticateDirectly` (the oracle `direct`, returning the token or the
endpoint's error message); first success wins. -/
def tryFallbacks (direct : String → Except String String) :
    List String → Option String
  | [] => none
  | u :: rest =>
    match direct u with
    | .ok token => some token
    | .error _ => tryFallbacks direct rest

/-- `authenticateWithCredentials` (part_000 lines 160-189).  `discovery`
is the `discoverAuthEndpoint` oracle; on discovery success the discovered
endpoint's `authenticateDirectly` outcome is returned as-is, on discovery
failure the three fallbacks are tried in order and exhaustion yields the
fixed error string of line 184. -/
def authenticateWithCredentials (direct : String → Except String String)
    (discovery : Except String String) (apiEndpoint : String) :
    Except String String :=
  match discovery with
  | .ok tokenURL => direct tokenURL
  | .error _ =>
    match tryFallbacks direct (fallbackURLs apiEndpoint) with
    | some token => .ok token
    | none => .error "authentication failed at all endpoints"

/-! ### Concrete fixtures used to instantiate the theorems -/

def planW : ServicePlan := ⟨"plan1", "small", "off1"⟩

def offeringW : ServiceOffering := ⟨"off1", "p-mysql"⟩

def catalogW : CFCatalog :=
  ⟨StrMap.empty.insert "plan1" planW, StrMap.empty.insert "off1" offeringW⟩

def orgW : Organization := ⟨"org-a", "g1"⟩

def sysOrgW : Organization := ⟨"system", "g2"⟩

/-- A run in which the single organization's usage summary succeeds
(5 app instances, 3 service instances) but its service-instance fetch
fails. -/
def envSIFail : CFEnv :=
  { catalog := catalogW, orgsResult := some [orgW],
    orgData := fun g =>
      if g = "g1" then ⟨some ⟨5, 3⟩, none⟩ else ⟨none, none⟩,
    appReport := none, curMonth := 1, curYear := 2026 }

/-- A run in which the single organization's usage summary reports zero
counts while its service-instance fetch returns one billable instance. -/
def envMismatch : CFEnv :=
  { catalog := catalogW, orgsResult := some [orgW],
    orgData := fun g =>
      if g = "g1" then ⟨some ⟨0, 0⟩, some [⟨"si1", "db", "plan1"⟩]⟩
      else ⟨none, none⟩,
    appReport := none, curMonth := 1, curYear := 2026 }

/-- A run containing the `system` organization with a successful summary
(3 app instances, 1 service instance). -/
def envSkip : CFEnv :=
  { catalog := catalogW, orgsResult := some [sysOrgW],
    orgData := fun g =>
      if g = "g2" then ⟨some ⟨3, 1⟩, some []⟩ else ⟨none, none⟩,
    appReport := none, curMonth := 1, curYear := 2026 }

/-- A two-page environment whose first page advertises an absolute next
URL. -/
def envPages : String → Option CFResponse := fun u =>
  if u = "/start" then some ⟨[1, 2], ⟨⟨"https://host/v3/foo?page=2"⟩⟩⟩
  else if u = "/v3/foo?page=2" then some ⟨[3], ⟨⟨""⟩⟩⟩
  else none

/-- The aggregate result the run `envSkip` produces under skip list
`["system"]`. -/
def skipResult : UsageResult :=
  { organizations := [], totalAIs := 3, totalBillableAIs := 0,
    totalSIs := 1, totalBillableSIs := 0,
    monthlyMaxBillableAIs := 0, yearlyMaxBillableAIs := 0 }

/-- The aggregate result the run `envMismatch` produces: the summary
reported 0 service instances while one fetched instance was billable. -/
def mismatchResult : UsageResult :=
  { organizations := [⟨"org-a", 0, 0, 1⟩], totalAIs := 0,
    totalBillableAIs := 0, totalSIs := 0, totalBillableSIs := 1,
    monthlyMaxBillableAIs := 0, yearlyMaxBillableAIs := 0 }

/-- The accumulator invariant maintained by the `collectUsageData`
loop: billable totals never exceed the corresponding grand totals, and
every emitted `OrgUsage` entry has `billableSIs ≤ sis`. -/
def AccInv (acc : Accum) : Prop :=
  acc.totalBillableAIs ≤ acc.totalAIs ∧
  acc.totalBillableSIs ≤ acc.totalSIs ∧
  ∀ ou ∈ acc.orgUsages, ou.billableSIs ≤ ou.sis

/-! ## Theorems -/

/-- C3: classification is fail-closed: a plan-catalog miss yields
`(false, "unknown-plan")`, an offering-catalog miss yields
`(false, "unknown-offering")`, and with both lookups resolved the
instance is billable iff the offering name is, by case-sensitive exact
match, one of the nine fixed billable offering names. -/
theorem claim_C3_fail_closed (c : CFCatalog) (inst : ServiceInstance) :
    (c.servicePlans inst.servicePlanGUID = none →
      isServiceInstanceBillable c inst = (false, "unknown-plan")) ∧
    (∀ plan, c.servicePlans inst.servicePlanGUID = some plan →
      c.serviceOfferings plan.serviceOfferingGUID = none →
      isServiceInstanceBillable c inst = (false, "unknown-offering")) ∧
    (∀ plan offering, c.servicePlans inst.servicePlanGUID = some plan →
      c.serviceOfferings plan.serviceOfferingGUID = some offering →
      ((isServiceInstanceBillable c inst).1 = true ↔
        offering.name ∈ ["p.mysql", "p-mysql", "p.rabbitmq", "p-rabbitmq",
          "p.redis", "p-redis", "postgres", "genai", "genai-service"])) := by
  refine ⟨fun h => ?_, fun plan h1 h2 => ?_, fun plan offering h1 h2 => ?_⟩
  · simp [isServiceInstanceBillable, h]
  · simp [isServiceInstanceBillable, h1, h2]
  · simp [isServiceInstanceBillable, h1, h2, billableOfferingNames]

/-- Witness for C3: in the concrete catalog, the instance on the
`p-mysql` plan is billable. -/
theorem claim_C3_witness :
    (isServiceInstanceBillable catalogW ⟨"si1", "db", "plan1"⟩).1 = true :=
  ((claim_C3_fail_closed catalogW ⟨"si1", "db", "plan1"⟩).2.2 planW offeringW
    rfl rfl).mpr (by decide)

/-- C10: whenever both lookups resolve, the string component of the
classification is the offering's actual name (billable or not); the
generic reasons are produced exactly by the two miss branches. -/
theorem claim_C10_resolved_offering_name (c : CFCatalog)
    (inst : ServiceInstance) :
    (∀ plan offering, c.servicePlans inst.servicePlanGUID = some plan →
      c.serviceOfferings plan.serviceOfferingGUID = some offering →
      (isServiceInstanceBillable c inst).2 = offering.name) ∧
    (c.servicePlans inst.servicePlanGUID = none →
      (isServiceInstanceBillable c inst).2 = "unknown-plan") ∧
    (∀ plan, c.servicePlans inst.servicePlanGUID = some plan →
      c.serviceOfferings plan.serviceOfferingGUID = none →
      (isServiceInstanceBillable c inst).2 = "unknown-offering") := by
  refine ⟨fun plan offering h1 h2 => ?_, fun h => ?_, fun plan h1 h2 => ?_⟩
  · simp [isServiceInstanceBillable, h1, h2]
  · simp [isServiceInstanceBillable, h]
  · simp [isServiceInstanceBillable, h1, h2]

/-- Witness for C10: with both lookups resolved in the concrete
catalog, the offering's actual name `p-mysql` is returned verbatim. -/
theorem claim_C10_witness :
    (isServiceInstanceBillable catalogW ⟨"si1", "db", "plan1"⟩).2 = "p-mysql" :=
  (claim_C10_resolved_offering_name catalogW ⟨"si1", "db", "plan1"⟩).1
    planW offeringW rfl rfl

/-- C9: one refresh iteration leaves the cache (result and timestamp)
unchanged when the collection run fails — including the empty state —
and stores the new result with the new timestamp when it succeeds. -/
theorem claim_C9_cache_transitions :
    (∀ (cd : CachedData) (msg : String) (now : Int),
      refreshStep cd (.error msg) now = cd) ∧
    (∀ (cd : CachedData) (result : UsageResult) (now : Int),
      refreshStep cd (.ok result) now =
        { result := some result, lastFetch := now }) := by
  exact ⟨fun _ _ _ => rfl, fun _ _ _ => rfl⟩

/-- C2: a skip-listed organization with a successful usage summary
adds its started app instances to the grand app-instance total and its
service-instance count to the grand service-instance total, while the
billable totals and the `OrgUsage` list are left exactly as they were
(no entry is produced). -/
theorem claim_C2_skip_semantics (env : CFEnv) (skipOrgs : List String)
    (acc : Accum) (org : Organization) (s : UsageSummary)
    (hsum : (env.orgData org.guid).summary = some s)
    (hskip : shouldSkipOrg org.name skipOrgs = true) :
    processOrg env skipOrgs acc org =
      { acc with totalAIs := acc.totalAIs + s.startedInstances,
                 totalSIs := acc.totalSIs + s.serviceInstances } := by
  simp [processOrg, hsum, hskip]

/-- Witness for C2: the `system` organization (3 AIs, 1 SI) under skip
list `["system"]`. -/
theorem claim_C2_witness :
    processOrg envSkip ["system"]
      { totalAIs := 0, totalBillableAIs := 0, totalSIs := 0,
        totalBillableSIs := 0, orgUsages := [] } sysOrgW =
      { totalAIs := 0 + 3, totalBillableAIs := 0, totalSIs := 0 + 1,
        totalBillableSIs := 0, orgUsages := [] } :=
  claim_C2_skip_semantics envSkip ["system"] _ sysOrgW ⟨3, 1⟩ rfl rfl

/-- C1 counterexample: in the run `envSIFail` the only organization's
usage summary succeeds (5 AIs, 3 SIs) but its service-instance fetch
fails, yet the run's totals are 5/5/3 — the organization contributed its
app-instance count to BOTH app-instance totals and its service-instance
count to the grand service-instance total, where the claim predicts a
zero contribution to every total (all totals 0). -/
theorem claim_C1_counterexample :
    (envSIFail.orgData "g1").summary = some ⟨5, 3⟩ ∧
    (envSIFail.orgData "g1").instances = none ∧
    collectUsageData envSIFail [] =
      .ok { organizations := [], totalAIs := 5, totalBillableAIs := 5,
            totalSIs := 3, totalBillableSIs := 0,
            monthlyMaxBillableAIs := 0, yearlyMaxBillableAIs := 0 } :=
  ⟨rfl, rfl, rfl⟩

/-- C1 amended: a usage-summary fetch failure is recovered and the
organization contributes zero to every total and produces no `OrgUsage`
entry; a service-instance fetch failure is also recovered, but by that
point the organization's `started_app_instances` have been added to both
the grand and billable app-instance totals and its
`service_instance_count` to the grand service-instance total — it
contributes zero only to the billable service-instance total, and
produces no `OrgUsage` entry. -/
theorem claim_C1_amended (env : CFEnv) (skipOrgs : List String)
    (acc : Accum) (org : Organization) :
    ((env.orgData org.guid).summary = none →
      processOrg env skipOrgs acc org = acc) ∧
    (∀ s, (env.orgData org.guid).summary = some s →
      shouldSkipOrg org.name skipOrgs = false →
      (env.orgData org.guid).instances = none →
      processOrg env skipOrgs acc org =
        { acc with totalAIs := acc.totalAIs + s.startedInstances,
                   totalSIs := acc.totalSIs + s.serviceInstances,
                   totalBillableAIs :=
                     acc.totalBillableAIs + s.startedInstances }) := by
  constructor
  · intro h
    simp [processOrg, h]
  · intro s hs hskip hinst
    simp [processOrg, hs, hskip, hinst]

/-- Witness for C1 amended: the organization of `envSIFail` (summary ok,
service-instance fetch failed, not skipped). -/
theorem claim_C1_witness :
    processOrg envSIFail []
      { totalAIs := 0, totalBillableAIs := 0, totalSIs := 0,
        totalBillableSIs := 0, orgUsages := [] } orgW =
      { totalAIs := 0 + 5, totalBillableAIs := 0 + 5, totalSIs := 0 + 3,
        totalBillableSIs := 0, orgUsages := [] } :=
  (claim_C1_amended envSIFail [] _ orgW).2 ⟨5, 3⟩ rfl rfl rfl

/-- The billable-counting fold only ever increments: its result lies
between the start value and the start value plus the list length. -/
theorem countBillable_foldl_bounds (cat : CFCatalog) :
    ∀ (insts : List ServiceInstance) (n : Int),
      n ≤ insts.foldl
        (fun n inst => if (isServiceInstanceBillable cat inst).1 then n + 1 else n) n ∧
      insts.foldl
        (fun n inst => if (isServiceInstanceBillable cat inst).1 then n + 1 else n) n ≤
        n + insts.length := by
  intro insts
  induction insts with
  | nil => intro n; simp
  | cons x xs ih =>
    intro n
    simp only [List.foldl_cons, List.length_cons]
    cases hx : (isServiceInstanceBillable cat x).1 <;>
      · simp only [hx, Bool.false_eq_true, if_false, if_true, reduceIte]
        have h1 := ih n
        have h2 := ih (n + 1)
        push_cast
        omega

theorem countBillable_nonneg (cat : CFCatalog) (insts : List ServiceInstance) :
    0 ≤ countBillable cat insts :=
  by simpa using (countBillable_foldl_bounds cat insts 0).1

theorem countBillable_le_length (cat : CFCatalog) (insts : List ServiceInstance) :
    countBillable cat insts ≤ (insts.length : Int) :=
  by simpa [countBillable] using (countBillable_foldl_bounds cat insts 0).2

/-- Shape of one loop iteration when the organization is not skipped
and both fetches succeed. -/
theorem processOrg_instances_ok (env : CFEnv) (skipOrgs : List String)
    (acc : Accum) (org : Organization) (s : UsageSummary)
    (insts : List ServiceInstance)
    (hsum : (env.orgData org.guid).summary = some s)
    (hskip : shouldSkipOrg org.name skipOrgs = false)
    (hinst : (env.orgData org.guid).instances = some insts) :
    processOrg env skipOrgs acc org =
      { totalAIs := acc.totalAIs + s.startedInstances,
        totalBillableAIs := acc.totalBillableAIs + s.startedInstances,
        totalSIs := acc.totalSIs + s.serviceInstances,
        totalBillableSIs :=
          acc.totalBillableSIs + countBillable env.catalog insts,
        orgUsages := acc.orgUsages ++
          [{ name := org.name, ais := s.startedInstances,
             sis := s.serviceInstances,
             billableSIs := countBillable env.catalog insts }] } := by
  simp [processOrg, hsum, hskip, hinst]

/-- One loop iteration preserves `AccInv`, provided fetched summaries
carry non-negative counts and fetched instance lists are no longer than
the summary's service-instance count. -/
theorem processOrg_preserves_inv (env : CFEnv) (skipOrgs : List String)
    (H1 : ∀ g s, (env.orgData g).summary = some s →
      0 ≤ s.startedInstances ∧ 0 ≤ s.serviceInstances)
    (H2 : ∀ g s insts, (env.orgData g).summary = some s →
      (env.orgData g).instances = some insts →
      (insts.length : Int) ≤ s.serviceInstances)
    (acc : Accum) (org : Organization) (h : AccInv acc) :
    AccInv (processOrg env skipOrgs acc org) := by
  obtain ⟨h1, h2, h3⟩ := h
  cases hsum : (env.orgData org.guid).summary with
  | none =>
    rw [show processOrg env skipOrgs acc org = acc by simp [processOrg, hsum]]
    exact ⟨h1, h2, h3⟩
  | some s =>
    obtain ⟨hai, hsi⟩ := H1 org.guid s hsum
    cases hskip : shouldSkipOrg org.name skipOrgs with
    | true =>
      rw [show processOrg env skipOrgs acc org =
        { acc with totalAIs := acc.totalAIs + s.startedInstances,
                   totalSIs := acc.totalSIs + s.serviceInstances }
        by simp [processOrg, hsum, hskip]]
      exact ⟨by dsimp; omega, by dsimp; omega, by dsimp; exact h3⟩
    | false =>
      cases hinst : (env.orgData org.guid).instances with
      | none =>
        rw [show processOrg env skipOrgs acc org =
          { acc with totalAIs := acc.totalAIs + s.startedInstances,
                     totalSIs := acc.totalSIs + s.serviceInstances,
                     totalBillableAIs :=
                       acc.totalBillableAIs + s.startedInstances }
          by simp [processOrg, hsum, hskip, hinst]]
        exact ⟨by dsimp; omega, by dsimp; omega, by dsimp; exact h3⟩
      | some insts =>
        have hb0 := countBillable_nonneg env.catalog insts
        have hb1 := countBillable_le_length env.catalog insts
        have hlen := H2 org.guid s insts hsum hinst
        rw [processOrg_instances_ok env skipOrgs acc org s insts hsum hskip hinst]
        refine ⟨by dsimp; omega, by dsimp; omega, ?_⟩
        dsimp
        intro ou hou
        rcases List.mem_append.mp hou with hmem | hmem
        · exact h3 ou hmem
        · rcases List.mem_singleton.mp hmem with rfl
          exact le_trans hb1 hlen

/-- The whole loop preserves `AccInv`. -/
theorem foldl_processOrg_inv (env : CFEnv) (skipOrgs : List String)
    (H1 : ∀ g s, (env.orgData g).summary = some s →
      0 ≤ s.startedInstances ∧ 0 ≤ s.serviceInstances)
    (H2 : ∀ g s insts, (env.orgData g).summary = some s →
      (env.orgData g).instances = some insts →
      (insts.length : Int) ≤ s.serviceInstances) :
    ∀ (orgs : List Organization) (acc : Accum), AccInv acc →
      AccInv (orgs.foldl (processOrg env skipOrgs) acc) := by
  intro orgs
  induction orgs with
  | nil => intro acc h; exact h
  | cons o os ih =>
    intro acc h
    exact ih _ (processOrg_preserves_inv env skipOrgs H1 H2 acc o h)

/-- C4 counterexample: in the run `envMismatch` every fetched usage
summary carries non-negative counts (the only one is `⟨0, 0⟩`), yet the
resulting totals satisfy `total_billable_service_instances = 1 >
0 = total_service_instances`, because the summary's service-instance
count (0) disagrees with the fetched instance list (one billable
instance).  The claimed invariant fails without an additional
consistency assumption. -/
theorem claim_C4_counterexample :
    (envMismatch.orgData "g1").summary = some ⟨0, 0⟩ ∧
    collectUsageData envMismatch [] = .ok mismatchResult ∧
    ¬ (mismatchResult.totalBillableSIs ≤ mismatchResult.totalSIs) :=
  ⟨rfl, rfl, by decide⟩

/-- C4 amended: if every fetched usage summary carries non-negative
counts AND, whenever both fetches succeed for an organization, the
fetched service-instance list is no longer than the summary's
service-instance count, then every successful collection run satisfies
`total_billable_app_instances ≤ total_app_instances`,
`total_billable_service_instances ≤ total_service_instances`, and
`billable_service_instances ≤ service_instances` for each listed
organization. -/
theorem claim_C4_amended (env : CFEnv) (skipOrgs : List String)
    (r : UsageResult)
    (hrun : collectUsageData env skipOrgs = .ok r)
    (H1 : ∀ g s, (env.orgData g).summary = some s →
      0 ≤ s.startedInstances ∧ 0 ≤ s.serviceInstances)
    (H2 : ∀ g s insts, (env.orgData g).summary = some s →
      (env.orgData g).instances = some insts →
      (insts.length : Int) ≤ s.serviceInstances) :
    r.totalBillableAIs ≤ r.totalAIs ∧
    r.totalBillableSIs ≤ r.totalSIs ∧
    ∀ ou ∈ r.organizations, ou.billableSIs ≤ ou.sis := by
  cases horg : env.orgsResult with
  | none => simp [collectUsageData, horg] at hrun
  | some orgs =>
    have hinv := foldl_processOrg_inv env skipOrgs H1 H2 orgs
      { totalAIs := 0, totalBillableAIs := 0, totalSIs := 0,
        totalBillableSIs := 0, orgUsages := [] }
      ⟨le_refl 0, le_refl 0, by simp⟩
    simp only [collectUsageData, horg, Except.ok.injEq] at hrun
    obtain ⟨h1, h2, h3⟩ := hinv
    subst hrun
    exact ⟨h1, h2, h3⟩

/-- Witness for C4 amended: the run `envSkip` with skip list
`["system"]` discharges both hypotheses and yields the invariant. -/
theorem claim_C4_witness :
    skipResult.totalBillableAIs ≤ skipResult.totalAIs :=
  (claim_C4_amended envSkip ["system"] skipResult rfl
    (by
      intro g s h
      by_cases hg : g = "g2"
      · simp only [envSkip, hg, if_pos] at h
        cases h
        exact ⟨by decide, by decide⟩
      · simp only [envSkip, if_neg hg] at h
        exact Option.noConfusion h)
    (by
      intro g s insts h hi
      by_cases hg : g = "g2"
      · simp only [envSkip, hg, if_pos] at h hi
        cases h
        cases hi
        decide
      · simp only [envSkip, if_neg hg] at h
        exact Option.noConfusion h)).1

/-- A well-formed N-page chain is fully drained: `loadAllPages` with
fuel N returns the concatenation of the chain's resource arrays. -/
theorem loadAllPages_chain (pages : List CFResponse) :
    ∀ (env : String → Option CFResponse) (url : String),
      isChain env url pages = true →
      loadAllPages env pages.length url = some (pagesConcat pages) := by
  induction pages with
  | nil => intro env url h; simp [isChain] at h
  | cons p ps ih =>
    intro env url h
    cases ps with
    | nil =>
      simp only [isChain, Bool.and_eq_true, decide_eq_true_eq] at h
      obtain ⟨⟨⟨hu1, hu2⟩, henv⟩, hnext⟩ := h
      simp [loadAllPages, hu1, hu2, henv, hnext, pagesConcat]
    | cons q rest =>
      simp only [isChain, Bool.and_eq_true, decide_eq_true_eq] at h
      obtain ⟨⟨⟨⟨hu1, hu2⟩, henv⟩, hnext⟩, hchain⟩ := h
      have hrec := ih env (stripDomain p.pagination.next.href) hchain
      simp only [List.length_cons] at hrec ⊢
      rw [loadAllPages, if_neg (by tauto), henv]
      dsimp only
      rw [if_neg hnext, hrec]
      simp [pagesConcat]

/-- C5: (1) given an N-page chain (N ≥ 1 since `isChain` rejects the
empty list; the last page's `next.href` empty, every other page's
non-empty), the fetcher returns the concatenation of all pages'
resource arrays in page order; and the fetch terminates exactly at the
three advertised conditions: (2) the path is empty, (3) the next URL is
the literal `"null"`, (4) the fetched page's `next.href` is empty —
while (5) in every other situation it continues with the
domain-stripped next URL. -/
theorem claim_C5_pagination :
    (∀ (env : String → Option CFResponse) (url : String)
      (pages : List CFResponse), isChain env url pages = true →
      loadAllPages env pages.length url = some (pagesConcat pages)) ∧
    (∀ (env : String → Option CFResponse) (fuel : Nat),
      loadAllPages env (fuel + 1) "" = some []) ∧
    (∀ (env : String → Option CFResponse) (fuel : Nat),
      loadAllPages env (fuel + 1) "null" = some []) ∧
    (∀ (env : String → Option CFResponse) (fuel : Nat) (url : String)
      (resp : CFResponse), url ≠ "" → url ≠ "null" → env url = some resp →
      resp.pagination.next.href = "" →
      loadAllPages env (fuel + 1) url = some resp.resources) ∧
    (∀ (env : String → Option CFResponse) (fuel : Nat) (url : String)
      (resp : CFResponse), url ≠ "" → url ≠ "null" → env url = some resp →
      resp.pagination.next.href ≠ "" →
      loadAllPages env (fuel + 1) url =
        Option.map (fun rest => resp.resources ++ rest)
          (loadAllPages env fuel (stripDomain resp.pagination.next.href))) := by
  refine ⟨fun env url pages h => loadAllPages_chain pages env url h,
    fun env fuel => by simp [loadAllPages],
    fun env fuel => by simp [loadAllPages],
    fun env fuel url resp hu1 hu2 henv hnext => by
      simp [loadAllPages, hu1, hu2, henv, hnext],
    fun env fuel url resp hu1 hu2 henv hnext => ?_⟩
  cases hrec : loadAllPages env fuel (stripDomain resp.pagination.next.href) with
  | none => simp [loadAllPages, hu1, hu2, henv, hnext, hrec]
  | some rest => simp [loadAllPages, hu1, hu2, henv, hnext, hrec]

/-- Witness for C5: the concrete two-page environment `envPages`. -/
theorem claim_C5_witness :
    loadAllPages envPages 2 "/start" = some [1, 2, 3] := by
  have h := claim_C5_pagination.1 envPages "/start"
    [⟨[1, 2], ⟨⟨"https://host/v3/foo?page=2"⟩⟩⟩, ⟨[3], ⟨⟨""⟩⟩⟩] (by decide)
  simpa [pagesConcat] using h

/-- Domain stripping on a general absolute URL with a non-empty path:
for a slash-free scheme and host, the scheme and host segments are
dropped and the remainder (path and query) is kept behind a leading
slash. -/
theorem stripDomainL_absolute (s h rest : List Char)
    (hs : '/' ∉ s) (hh : '/' ∉ h) :
    stripDomainL (s ++ ':' :: '/' :: '/' :: (h ++ '/' :: rest)) = '/' :: rest := by
  have hp : ('/' == '/') = true := by simp
  have h1 : ∀ x ∈ s ++ [':'], ¬ ((x == '/') = true) := by
    intro x hx
    rcases List.mem_append.mp hx with hxs | hxc
    · simp only [beq_iff_eq]
      exact fun he => hs (he ▸ hxs)
    · rcases List.mem_singleton.mp hxc with rfl
      decide
  have h2 : ∀ x ∈ h, ¬ ((x == '/') = true) := by
    intro x hx
    simp only [beq_iff_eq]
    exact fun he => hh (he ▸ hx)
  have hsplit : (s ++ ':' :: '/' :: '/' :: (h ++ '/' :: rest)).splitOn '/' =
      (s ++ [':']) :: [] :: h :: rest.splitOn '/' := by
    show (s ++ ':' :: '/' :: '/' :: (h ++ '/' :: rest)).splitOnP (· == '/') = _
    have e1 : s ++ ':' :: '/' :: '/' :: (h ++ '/' :: rest) =
        (s ++ [':']) ++ '/' :: ('/' :: (h ++ '/' :: rest)) := by simp
    rw [e1, List.splitOnP_first (fun x => x == '/') (s ++ [':']) h1 '/' hp
      ('/' :: (h ++ '/' :: rest))]
    rw [show ('/' :: (h ++ '/' :: rest)) =
        ([] : List Char) ++ '/' :: (h ++ '/' :: rest) from rfl,
      List.splitOnP_first (fun x => x == '/') ([] : List Char)
        (by intro x hx; cases hx) '/' hp (h ++ '/' :: rest)]
    rw [List.splitOnP_first (fun x => x == '/') h h2 '/' hp rest]
    rfl
  have hscheme : hasSchemeSep (s ++ ':' :: '/' :: '/' :: (h ++ '/' :: rest)) = true := by
    simp only [hasSchemeSep, decide_eq_true_eq]
    exact ⟨s, h ++ '/' :: rest, by simp⟩
  have hne := List.splitOnP_ne_nil (· == '/') rest
  simp only [stripDomainL, hscheme, if_true, hsplit]
  rw [if_pos]
  · simp [List.intercalate_splitOn]
  · have : 0 < (rest.splitOn '/').length := List.length_pos.mpr hne
    simp only [List.length_cons]
    omega

/-- C6 counterexample: `"https://host"` is an absolute URL (it contains
the scheme separator), yet the fetcher leaves it completely unchanged —
it is NOT rewritten to a path-relative form — because splitting it on
`"/"` yields only 3 parts. -/
theorem claim_C6_counterexample :
    hasSchemeSep ("https://host".data) = true ∧
    stripDomain "https://host" = "https://host" :=
  ⟨by decide, by decide⟩

/-- C6 amended: whenever `next.href` is an absolute URL with at least
one `/` after the host (slash-free scheme and host, then a path), the
fetcher drops the scheme and host segments and keeps path and query
behind a leading slash; an absolute URL with no `/` after the host is
left unchanged.  In particular `https://host/v3/foo?page=2` becomes
`/v3/foo?page=2`. -/
theorem claim_C6_amended :
    (∀ (s h rest : List Char), '/' ∉ s → '/' ∉ h →
      stripDomainL (s ++ ':' :: '/' :: '/' :: (h ++ '/' :: rest)) =
        '/' :: rest) ∧
    (∀ url : String, stripDomain url = (stripDomainL url.data).asString) ∧
    stripDomain "https://host/v3/foo?page=2" = "/v3/foo?page=2" ∧
    stripDomain "https://host" = "https://host" :=
  ⟨stripDomainL_absolute, fun _ => rfl, by decide, by decide⟩

/-- Witness for C6 amended: the spec's own example URL, decomposed as
scheme `https`, host `host`, remainder `v3/foo?page=2`. -/
theorem claim_C6_witness :
    stripDomainL ("https".data ++ ':' :: '/' :: '/' ::
      ("host".data ++ '/' :: "v3/foo?page=2".data)) =
      '/' :: "v3/foo?page=2".data :=
  claim_C6_amended.1 "https".data "host".data "v3/foo?page=2".data
    (by decide) (by decide)

/-- A fold of keyed inserts leaves keys that never occur in the list
untouched. -/
theorem foldl_insert_apply_not_mem {α : Type} (key : α → String) :
    ∀ (rs : List α) (m : StrMap α) (k : String), (∀ x ∈ rs, key x ≠ k) →
      rs.foldl (fun acc x => acc.insert (key x) x) m k = m k := by
  intro rs
  induction rs with
  | nil => intro m k _; rfl
  | cons x xs ih =>
    intro m k hk
    simp only [List.foldl_cons]
    rw [ih _ k (fun y hy => hk y (List.mem_cons_of_mem x hy))]
    exact if_neg (fun he => hk x (List.mem_cons_self x xs) he.symm)

/-- On a key that occurs in the list, the fold's answer does not depend
on the starting map. -/
theorem foldl_insert_apply_mem {α : Type} (key : α → String) :
    ∀ (rs : List α) (m₁ m₂ : StrMap α) (k : String), (∃ x ∈ rs, key x = k) →
      rs.foldl (fun acc x => acc.insert (key x) x) m₁ k =
      rs.foldl (fun acc x => acc.insert (key x) x) m₂ k := by
  intro rs
  induction rs with
  | nil => intro m₁ m₂ k h; rcases h with ⟨x, hx, _⟩; cases hx
  | cons x xs ih =>
    intro m₁ m₂ k hex
    simp only [List.foldl_cons]
    by_cases hxs : ∃ y ∈ xs, key y = k
    · exact ih _ _ k hxs
    · push_neg at hxs
      have hx : key x = k := by
        rcases hex with ⟨y, hy, hyk⟩
        rcases List.mem_cons.mp hy with rfl | hmem
        · exact hyk
        · exact absurd hyk (hxs y hmem)
      rw [foldl_insert_apply_not_mem key xs _ k (fun y hy he => hxs y hy he),
        foldl_insert_apply_not_mem key xs _ k (fun y hy he => hxs y hy he)]
      simp [StrMap.insert, hx.symm]

/-- Re-running a fold of keyed inserts over the same list changes
nothing. -/
theorem foldl_insert_idem {α : Type} (key : α → String) (rs : List α)
    (m : StrMap α) :
    rs.foldl (fun acc x => acc.insert (key x) x)
      (rs.foldl (fun acc x => acc.insert (key x) x) m) =
    rs.foldl (fun acc x => acc.insert (key x) x) m := by
  funext k
  by_cases hex : ∃ x ∈ rs, key x = k
  · exact foldl_insert_apply_mem key rs _ m k hex
  · push_neg at hex
    exact foldl_insert_apply_not_mem key rs _ k
      (fun y hy he => hex y hy he)

/-- C7 counterexample: reloading the plan (resp. offering) catalog over
newly fetched pages `[new]` does NOT replace the prior contents — the
stale entry under the id `"old"`, absent from the new pages, survives
next to the new entry, whereas the claim predicts the mapping would
afterwards contain exactly the new pages' entries (so `none` at
`"old"`). -/
theorem claim_C7_counterexample :
    loadServicePlans (StrMap.empty.insert "old" ⟨"old", "stale", "off0"⟩)
      [⟨"new", "np", "off1"⟩] "old" = some ⟨"old", "stale", "off0"⟩ ∧
    loadServicePlans (StrMap.empty.insert "old" ⟨"old", "stale", "off0"⟩)
      [⟨"new", "np", "off1"⟩] "new" = some ⟨"new", "np", "off1"⟩ ∧
    loadServiceOfferings (StrMap.empty.insert "old" ⟨"old", "stale"⟩)
      [⟨"new", "rabbit"⟩] "old" = some ⟨"old", "stale"⟩ :=
  ⟨rfl, rfl, rfl⟩

/-- C7 amended: reloading merges instead of replacing.  For both
catalogs: (1) a key absent from the newly fetched pages keeps its prior
value; (2) a key present in the new pages gets exactly the value a
fresh load of those pages would give it (new entries overwrite); (3)
reloading again with the same pages is idempotent. -/
theorem claim_C7_reload_merges :
    (∀ (m : StrMap ServicePlan) (rs : List ServicePlan) (k : String),
      (∀ p ∈ rs, p.guid ≠ k) → loadServicePlans m rs k = m k) ∧
    (∀ (m : StrMap ServicePlan) (rs : List ServicePlan) (k : String),
      (∃ p ∈ rs, p.guid = k) →
      loadServicePlans m rs k = loadServicePlans StrMap.empty rs k) ∧
    (∀ (m : StrMap ServicePlan) (rs : List ServicePlan),
      loadServicePlans (loadServicePlans m rs) rs = loadServicePlans m rs) ∧
    (∀ (m : StrMap ServiceOffering) (rs : List ServiceOffering) (k : String),
      (∀ o ∈ rs, o.guid ≠ k) → loadServiceOfferings m rs k = m k) ∧
    (∀ (m : StrMap ServiceOffering) (rs : List ServiceOffering) (k : String),
      (∃ o ∈ rs, o.guid = k) →
      loadServiceOfferings m rs k = loadServiceOfferings StrMap.empty rs k) ∧
    (∀ (m : StrMap ServiceOffering) (rs : List ServiceOffering),
      loadServiceOfferings (loadServiceOfferings m rs) rs =
        loadServiceOfferings m rs) :=
  ⟨fun m rs k h =>
    foldl_insert_apply_not_mem (fun p : ServicePlan => p.guid) rs m k h,
   fun m rs k h =>
    foldl_insert_apply_mem (fun p : ServicePlan => p.guid) rs m StrMap.empty k h,
   fun m rs => foldl_insert_idem (fun p : ServicePlan => p.guid) rs m,
   fun m rs k h =>
    foldl_insert_apply_not_mem (fun o : ServiceOffering => o.guid) rs m k h,
   fun m rs k h =>
    foldl_insert_apply_mem (fun o : ServiceOffering => o.guid) rs m
      StrMap.empty k h,
   fun m rs => foldl_insert_idem (fun o : ServiceOffering => o.guid) rs m⟩

/-- Witness for C7 amended: a reload whose new pages do not mention
`"old"` keeps the prior `"old"` entry. -/
theorem claim_C7_witness :
    loadServicePlans (StrMap.empty.insert "old" ⟨"old", "stale", "off0"⟩)
      [⟨"new2", "np", "off1"⟩] "old" = some ⟨"old", "stale", "off0"⟩ :=
  claim_C7_reload_merges.1 _ _ "old" (by decide)

/-- The fallback loop yields nothing when every endpoint errors. -/
theorem tryFallbacks_none (direct : String → Except String String) :
    ∀ (urls : List String), (∀ u ∈ urls, ∃ msg, direct u = .error msg) →
      tryFallbacks direct urls = none := by
  intro urls
  induction urls with
  | nil => intro _; rfl
  | cons u us ih =>
    intro h
    obtain ⟨msg, hmsg⟩ := h u (List.mem_cons_self u us)
    simp [tryFallbacks, hmsg,
      ih (fun v hv => h v (List.mem_cons_of_mem u hv))]

/-- C8 counterexample: with discovery failed and every fallback
failing, authentication fails with the FIXED message
`"authentication failed at all endpoints"`; none of the three tried
endpoint URLs occurs in that message, so the error does not enumerate
which endpoints were tried, contrary to the claim. -/
theorem claim_C8_counterexample :
    authenticateWithCredentials
      (fun _ => .error "authentication failed with status 401")
      (.error "no authorization endpoint found in API info")
      "https://api.example.com" =
      .error "authentication failed at all endpoints" ∧
    fallbackURLs "https://api.example.com" =
      ["https://uaa.example.com/oauth/token",
       "https://api.example.com/uaa/oauth/token",
       "https://api.example.com/oauth/token"] ∧
    ¬ ("https://uaa.example.com/oauth/token".data <:+:
        "authentication failed at all endpoints".data) ∧
    ¬ ("https://api.example.com/uaa/oauth/token".data <:+:
        "authentication failed at all endpoints".data) ∧
    ¬ ("https://api.example.com/oauth/token".data <:+:
        "authentication failed at all endpoints".data) :=
  ⟨rfl, rfl, by decide, by decide, by decide⟩

/-- C8 amended: if endpoint discovery fails and every fallback token
endpoint errors, authentication fails with the fixed error
`"authentication failed at all endpoints"` (the endpoints tried are
logged during the attempts but are not enumerated in the returned
error). -/
theorem claim_C8_amended (direct : String → Except String String)
    (dmsg : String) (apiEndpoint : String)
    (hfail : ∀ u ∈ fallbackURLs apiEndpoint, ∃ msg, direct u = .error msg) :
    authenticateWithCredentials direct (.error dmsg) apiEndpoint =
      .error "authentication failed at all endpoints" := by
  simp [authenticateWithCredentials,
    tryFallbacks_none direct (fallbackURLs apiEndpoint) hfail]

/-- Witness for C8 amended: an oracle that rejects every endpoint. -/
theorem claim_C8_witness :
    authenticateWithCredentials (fun _ => .error "boom") (.error "disc")
      "https://api.example.com" =
      .error "authentication failed at all endpoints" :=
  claim_C8_amended (fun _ => .error "boom") "disc" "https://api.example.com"
    (fun _ _ => ⟨"boom", rfl⟩)

end TpcfUsage
